import Mathlib

/-!
Verification of the aware_filter device-telemetry core: a shallow embedding
of src/aware_filter/insertion.py and src/aware_filter/retrieval.py, with
theorems settling the frozen claims about the rate limiter, the record
transformer/writer, the table query engine, the dual-source query merger
and the table discovery service.
-/

/-- Scalar cell values carried by records (JSON scalars plus SQL NULL and
binary blobs), mirroring the values the Python code passes around. -/
inductive Value where
  | vStr (s : String)
  | vInt (n : Int)
  | vBool (b : Bool)
  | vBytes (bs : List Nat)
  | vNull
deriving DecidableEq, Repr

/-- A record is an ordered mapping column-name to value, as a Python dict
with insertion order. -/
abbrev Record := List (String × Value)

/-- First binding of key `k` in record `r` (Python `dict[k]` / key lookup). -/
def lookupKey (r : Record) (k : String) : Option Value :=
  match r.find? (fun p => p.1 = k) with
  | some p => some p.2
  | none => none

/-- Python `k in record`: key presence. -/
def hasKey (r : Record) (k : String) : Bool :=
  (lookupKey r k).isSome

/-- Python `record.get(k)`: returns Python None both when the key is absent
and when the stored value is JSON null, since both become the None object. -/
def pyGet (r : Record) (k : String) : Option Value :=
  match lookupKey r k with
  | some Value.vNull => none
  | some v => some v
  | none => none

/-- Numeric view of a value for Python arithmetic: ints are themselves and
booleans coerce to 0/1 (Python bool is an int); everything else is not a
number and makes `-` raise. -/
def numOf : Value → Option Int
  | Value.vInt n => some n
  | Value.vBool b => some (if b then 1 else 0)
  | _ => none

/-- Python `record.get('timestamp')` as seen by the rate limiter. -/
def getTs (r : Record) : Option Value :=
  pyGet r "timestamp"

/-- ASCII whitespace stripped by `str.strip()` / `int()`. -/
def isSpaceChar (c : Char) : Bool :=
  c = ' ' ∨ c.toNat = 9 ∨ c.toNat = 10 ∨ c.toNat = 13

/-- Python `str.strip()` on a character list. -/
def trimChars (l : List Char) : List Char :=
  ((l.dropWhile isSpaceChar).reverse.dropWhile isSpaceChar).reverse

/-- Python `str.strip()`. -/
def pyStrip (s : String) : String :=
  (trimChars s.toList).asString

/-- Accumulator loop of Python `s.split(',')`. -/
def splitCommaGo : List Char → List Char → List String
  | [], cur => [cur.reverse.asString]
  | c :: cs, cur =>
    if c = ',' then cur.reverse.asString :: splitCommaGo cs []
    else splitCommaGo cs (c :: cur)

/-- Python `s.split(',')`. -/
def splitComma (s : String) : List String :=
  splitCommaGo s.toList []

/-- Python `[d.strip() for d in s.split(',') if d.strip()]`. -/
def splitTrim (s : String) : List String :=
  ((splitComma s).map pyStrip).filter (fun d => d ≠ "")

/-- Decimal digit value of a character, when it is one. -/
def digitVal (c : Char) : Option Nat :=
  if 48 ≤ c.toNat ∧ c.toNat ≤ 57 then some (c.toNat - 48) else none

/-- Most-significant-first decimal accumulation. -/
def digitsGo : List Char → Nat → Option Nat
  | [], acc => some acc
  | c :: cs, acc =>
    match digitVal c with
    | some d => digitsGo cs (acc * 10 + d)
    | none => none

/-- Python `int(s)`: optional surrounding whitespace, optional sign, at
least one decimal digit; anything else raises ValueError (None here). -/
def pyToInt (s : String) : Option Int :=
  match trimChars s.toList with
  | [] => none
  | c :: cs =>
    if c = '-' then
      match cs with
      | [] => none
      | _ => (digitsGo cs 0).map (fun n => -(n : Int))
    else if c = '+' then
      match cs with
      | [] => none
      | _ => (digitsGo cs 0).map (fun n => (n : Int))
    else (digitsGo (c :: cs) 0).map (fun n => (n : Int))

/-- Python `s.endswith(suffix)`, evaluated on the character lists. -/
def strEndsWith (s suffix : String) : Bool :=
  suffix.toList.isSuffixOf s.toList

/-- Python `sep.join(l)`. -/
def joinWith (sep : String) : List String → String
  | [] => ""
  | [x] => x
  | x :: xs => x ++ sep ++ joinWith sep xs

/-- Lexicographic character-list comparison underlying Python string <. -/
def charListLt : List Char → List Char → Bool
  | [], [] => false
  | [], _ :: _ => true
  | _ :: _, [] => false
  | a :: as, b :: bs =>
    if a.toNat < b.toNat then true
    else if b.toNat < a.toNat then false
    else charListLt as bs

/-- Lexicographic string comparison (Python string <). -/
def strLt (a b : String) : Bool :=
  charListLt a.toList b.toList

/-- Lexicographic byte-list comparison (Python bytes <). -/
def natListLt : List Nat → List Nat → Bool
  | [], [] => false
  | [], _ :: _ => true
  | _ :: _, [] => false
  | a :: as, b :: bs =>
    if a < b then true
    else if b < a then false
    else natListLt as bs

/-- Insert-or-replace into an ordered string-keyed dict (Python dict
assignment keeps the first-insertion position of an existing key). -/
def upsert (m : List (String × Value)) (k : String) (v : Value) :
    List (String × Value) :=
  if m.any (fun p => p.1 = k) then
    m.map (fun p => if p.1 = k then (k, v) else p)
  else m ++ [(k, v)]

/-- The record's timestamp as a Python number, when it is one. -/
def tsNum (r : Record) : Option Int :=
  (getTs r).bind numOf

/- ===== Rate limiter (insertion.py lines 15-48) ===== -/

/-- insertion.py: `general_rate_limit = 200000  # 5 Hz`, in microseconds. -/
def general_rate_limit : Int := 200000

/-- insertion.py: `rate_limits = {'accelerometer': 200000}`. -/
def rate_limits : List (String × Int) := [("accelerometer", 200000)]

/-- Python `rate_limits.get(table_name, general_rate_limit)`. -/
def rateLimitFor (table_name : String) : Int :=
  match rate_limits.find? (fun p => p.1 = table_name) with
  | some p => p.2
  | none => general_rate_limit

/-- The loop of `apply_rate_limit` over a list of records, carrying
`last_timestamp` (a Python value or None). A kept record updates the state
to its own `.get('timestamp')`; the comparison `timestamp - last_timestamp`
raises TypeError when either side is not a number. -/
def rateLimitGo (interval : Int) (last : Option Value) :
    List Record → Except String (List Record)
  | [] => Except.ok []
  | r :: rs =>
    let ts := getTs r
    match last with
    | none => (rateLimitGo interval ts rs).map (fun tail => r :: tail)
    | some lv =>
      match ts.bind numOf, numOf lv with
      | some t, some lt =>
        if t - lt ≥ interval then
          (rateLimitGo interval ts rs).map (fun tail => r :: tail)
        else
          rateLimitGo interval (some lv) rs
      | _, _ => Except.error "TypeError: unsupported operand type for -"

/-- Input shape of `apply_rate_limit` / `insert_records`: a single record
dict or a list of records. -/
inductive Payload where
  | single (r : Record)
  | batch (rs : List Record)
deriving DecidableEq, Repr

/-- insertion.py `apply_rate_limit`: a single dict passes through; a list is
filtered by the causal streaming scan. A TypeError inside the scan
propagates to the caller. -/
def apply_rate_limit (data : Payload) (table_name : String) :
    Except String Payload :=
  match data with
  | Payload.single r => Except.ok (Payload.single r)
  | Payload.batch rs =>
    (rateLimitGo (rateLimitFor table_name) none rs).map Payload.batch

/- ===== Storage model ===== -/

/-- The relational store seen through `get_connection`: a schema of named
tables with their rows, a connection-availability flag, and a set of tables
on which INSERT statements are rejected by the engine (duplicate keys,
column mismatches), keeping the write-failure fallback paths live. -/
structure Db where
  connOk : Bool
  tables : List (String × List Record)
  failTables : List String
deriving DecidableEq, Repr

/-- Rows of a table, when the table exists in the schema. -/
def Db.findTable (db : Db) (name : String) : Option (List Record) :=
  match db.tables.find? (fun p => p.1 = name) with
  | some p => some p.2
  | none => none

/-- Existence of a table in the schema (what `SELECT 1 FROM t LIMIT 1`
probes: the statement raises only when the table is absent). -/
def Db.hasTable (db : Db) (name : String) : Bool :=
  (db.findTable name).isSome

/-- Statement `INSERT INTO name (...) VALUES (...)`: appends a row; the statement
raises when the table is absent or the engine rejects the write. -/
def Db.insertRow (db : Db) (name : String) (r : Record) : Option Db :=
  if name ∈ db.failTables then none
  else
    match db.findTable name with
    | none => none
    | some _ =>
      some { db with
             tables := db.tables.map
               (fun p => if p.1 = name then (p.1, p.2 ++ [r]) else p) }

/- ===== WHERE conditions (the predicate fragments the Python code builds
as SQL strings with positional parameters; each condition owns its
parameters, so they are embedded semantically) ===== -/

/-- A WHERE fragment: equality, IN over a value list, or the two timestamp
range comparisons built from start_time / end_time (whose parameter is the
raw query-string value, coerced numerically by the engine). -/
inductive Cond where
  | ceq (field : String) (v : Value)
  | cin (field : String) (vs : List Value)
  | cge (field : String) (bound : String)
  | cle (field : String) (bound : String)
deriving DecidableEq, Repr

/-- The value of a column in a row; a column absent from the stored record
reads as SQL NULL. -/
def colVal (r : Record) (f : String) : Value :=
  match lookupKey r f with
  | some v => v
  | none => Value.vNull

/-- SQL three-valued equality collapsed to a match test: NULL never equals
anything. -/
def sqlEq (a b : Value) : Bool :=
  a ≠ Value.vNull ∧ b ≠ Value.vNull ∧ a = b

/-- Evaluate one condition against one row (MySQL semantics for the shapes
the code generates; range bounds compare numerically). -/
def evalCond (c : Cond) (r : Record) : Bool :=
  match c with
  | Cond.ceq f v => sqlEq (colVal r f) v
  | Cond.cin f vs => vs.any (fun v => sqlEq (colVal r f) v)
  | Cond.cge f b =>
    match numOf (colVal r f), pyToInt b with
    | some c0, some b0 => c0 ≥ b0
    | _, _ => false
  | Cond.cle f b =>
    match numOf (colVal r f), pyToInt b with
    | some c0, some b0 => c0 ≤ b0
    | _, _ => false

/-- The conjunction `' AND '.join(conditions)` applied to a row. -/
def matchesAll (conds : List Cond) (r : Record) : Bool :=
  conds.all (fun c => evalCond c r)

/- ===== serialize_for_json (retrieval.py lines 13-41) ===== -/

/-- The base64 alphabet. -/
def b64Chars : List Char :=
  "ABCDEFGHIJKLMNOPQRSTUVWXYZabcdefghijklmnopqrstuvwxyz0123456789+/".toList

/-- One base64 digit. -/
def b64Char (n : Nat) : Char :=
  b64Chars.getD n (Char.ofNat 65)

/-- RFC 4648 base64 of a byte list (what `base64.b64encode` produces). -/
def b64encodeGo : List Nat → List Char
  | [] => []
  | [a] =>
    [b64Char (a / 4 % 64), b64Char (a % 4 * 16),
     Char.ofNat 61, Char.ofNat 61]
  | [a, b] =>
    [b64Char (a / 4 % 64), b64Char (a % 4 * 16 + b / 16),
     b64Char (b % 16 * 4), Char.ofNat 61]
  | a :: b :: c :: rest =>
    b64Char (a / 4 % 64) :: b64Char (a % 4 * 16 + b / 16) ::
      b64Char (b % 16 * 4 + c / 64) :: b64Char (c % 64) :: b64encodeGo rest

/-- Byte list to base64 string. -/
def b64encode (bs : List Nat) : String :=
  String.mk (b64encodeGo bs)

/-- Bytes values become base64 strings; everything else passes through. -/
def serializeValue (v : Value) : Value :=
  match v with
  | Value.vBytes bs => Value.vStr (b64encode bs)
  | v => v

/-- retrieval.py `serialize_for_json` on one record. -/
def serializeRecord (r : Record) : Record :=
  r.map (fun p => (p.1, serializeValue p.2))

/- ===== query_table (retrieval.py lines 123-215) ===== -/

/-- The success payload of a query: rows, page size, full matching size,
and the pagination echo. -/
structure QueryResp where
  data : List Record
  count : Nat
  total_count : Nat
  limit : Int
  offset : Int
  has_more : Bool
deriving DecidableEq, Repr

/-- Outcome of the retrieval functions: the `(success, dict, status)`
triple, with the failure dict holding only an error message. -/
inductive QTRes where
  | ok (resp : QueryResp) (status : Nat)
  | err (msg : String) (status : Nat)
deriving DecidableEq, Repr

/-- Whether the first component of the returned triple is True. -/
def qtSuccess : QTRes → Bool
  | QTRes.ok _ _ => true
  | QTRes.err _ _ => false

/-- The status code of the returned triple. -/
def qtStatus : QTRes → Nat
  | QTRes.ok _ s => s
  | QTRes.err _ s => s

/-- The response total_count, when the call succeeded. -/
def qtTotal : QTRes → Option Nat
  | QTRes.ok r _ => some r.total_count
  | QTRes.err _ _ => none

/-- The page of rows, when the call succeeded. -/
def qtData : QTRes → Option (List Record)
  | QTRes.ok r _ => some r.data
  | QTRes.err _ _ => none

/-- The full matching set of the count query: all rows when there is no
WHERE clause (`if conditions and params`), the filtered rows otherwise. -/
def qtMatching (conds : List Cond) (rows : List Record) : List Record :=
  if conds.isEmpty then rows else rows.filter (matchesAll conds)

/-- The serialized page `LIMIT L OFFSET O` of the matching set. -/
def qtSer (conds : List Cond) (rows : List Record) (L O : Int) :
    List Record :=
  (((qtMatching conds rows).drop O.toNat).take L.toNat).map serializeRecord

/-- The success response of `query_table`. -/
def qtOkResp (conds : List Cond) (rows : List Record) (L O : Int) : QTRes :=
  QTRes.ok
    { data := qtSer conds rows L O
      count := (qtSer conds rows L O).length
      total_count := (qtMatching conds rows).length
      limit := L
      offset := O
      has_more := decide ((O + ((qtSer conds rows L O).length : Int)) <
        ((qtMatching conds rows).length : Int)) }
    200

/-- The connection-and-execution part of `query_table`, after the limit and
offset defaults are resolved: count query over all matching rows, then the
page fetch `LIMIT limit OFFSET offset` (a negative literal in either clause
is a statement error) followed by JSON serialization. -/
def queryTableRun (db : Db) (t : String) (conds : List Cond)
    (L O : Int) : QTRes :=
  if ¬ db.connOk then QTRes.err "database connection failed" 503
  else
    match db.findTable t with
    | none => QTRes.err "Table not found" 500
    | some rows =>
      if L < 0 ∨ O < 0 then QTRes.err "SQL syntax error" 500
      else qtOkResp conds rows L O

/-- retrieval.py `query_table`: missing table name is a 400; a supplied
limit above 50000 is a 400; a missing limit defaults to 10000 and a missing
offset to 0. -/
def query_table (db : Db) (table_name : Option String) (conds : List Cond)
    (limit offset : Option Int) : QTRes :=
  match table_name with
  | none => QTRes.err "missing table name" 400
  | some t =>
    if t = "" then QTRes.err "missing table name" 400
    else
      match limit with
      | some l =>
        if l > 50000 then
          QTRes.err "limit cannot exceed 50000 records" 400
        else queryTableRun db t conds l (offset.getD 0)
      | none => queryTableRun db t conds 10000 (offset.getD 0)

/- ===== Insertion (insertion.py lines 51-253) ===== -/

/-- The process-wide counters touched by the insert path. -/
structure Stats where
  successful_inserts : Nat
  failed_inserts : Nat
  successful_transforms : Nat
  transformation_failures : Nat
deriving DecidableEq, Repr

/-- insertion.py `get_device_uid`: point lookup of `id` in `device_lookup`
where `device_uuid` equals the given device id value. Returns the
`(success, device_uid, error)` triple; the uid slot carries the looked-up
column value (possibly NULL). -/
def get_device_uid (db : Db) (device_id : Value) :
    Bool × Option Value × Option String :=
  if ¬ db.connOk then (false, none, some "Database connection failed")
  else
    match db.findTable "device_lookup" with
    | none => (false, none, some "Table device_lookup not found")
    | some rows =>
      match rows.find? (fun r => sqlEq (colVal r "device_uuid") device_id) with
      | some r => (true, some ((pyGet r "id").getD Value.vNull), none)
      | none =>
        (false, none, some "Device not found in device_lookup")

/-- The transformed record: every field of the original except `device_id`,
then the dict assignment `transformed_record['device_uid'] = device_uid`
(overwriting in place any existing `device_uid` binding, appending
otherwise). -/
def transformedRecord (r : Record) (uid : Value) : Record :=
  upsert (r.filter (fun p => p.1 ≠ "device_id")) "device_uid" uid

/-- insertion.py `transform_and_write`. Returns the updated store and stats
with the `(success, error)` pair. A record without `device_id` returns
success immediately, without any write. -/
def transform_and_write (db : Db) (record : Record)
    (original_table_name : String) (stats : Stats) :
    Db × Stats × Bool × Option String :=
  if ¬ hasKey record "device_id" then (db, stats, true, none)
  else
    let ttn := original_table_name ++ "_transformed"
    if ¬ db.connOk then (db, stats, false, some "Database connection failed")
    else if ¬ db.hasTable ttn then
      (db, stats, false, some "Transformed table does not exist")
    else
      match get_device_uid db ((lookupKey record "device_id").getD Value.vNull) with
      | (false, _, errMsg) =>
        (db, { stats with
               transformation_failures := stats.transformation_failures + 1 },
         false, errMsg)
      | (true, uid, _) =>
        let trec := transformedRecord record (uid.getD Value.vNull)
        match db.insertRow ttn trec with
        | some db2 =>
          (db2, { stats with
                  successful_transforms := stats.successful_transforms + 1 },
           true, none)
        | none =>
          (db, { stats with
                 transformation_failures := stats.transformation_failures + 1 },
           false, some "Error writing transformed record")

/-- insertion.py `insert_record`: try the transform path; when it reports
success the insert is considered done, otherwise fall back to writing the
unmodified record into the original table. -/
def insert_record (db : Db) (data : Record) (table_name : String)
    (stats : Stats) : Db × Stats × Bool × String :=
  if ¬ db.connOk then (db, stats, false, "Database connection failed")
  else
    match transform_and_write db data table_name stats with
    | (db1, st1, true, _) =>
      (db1, st1, true, "Data inserted successfully into transformed table")
    | (db1, st1, false, _) =>
      match db1.insertRow table_name data with
      | some db2 =>
        (db2, { st1 with successful_inserts := st1.successful_inserts + 1 },
         true, "Data inserted successfully")
      | none =>
        (db1, { st1 with failed_inserts := st1.failed_inserts + 1 },
         false, "Error inserting data")

/-- The per-record loop of `insert_records` over a batch, counting
successes and failures. -/
def insertLoop (db : Db) (records : List Record) (table_name : String)
    (stats : Stats) : Db × Stats × Nat × Nat :=
  match records with
  | [] => (db, stats, 0, 0)
  | r :: rs =>
    match insert_record db r table_name stats with
    | (db1, st1, ok, _) =>
      match insertLoop db1 rs table_name st1 with
      | (db2, st2, s, e) =>
        if ok then (db2, st2, s + 1, e) else (db2, st2, s, e + 1)

/-- The structured outcome dict of `insert_records`. -/
inductive InsResp where
  | okBatch (inserted errors : Nat)
  | okSingle
  | errMsg (m : String)
deriving DecidableEq, Repr

/-- Python truthiness of the request body: None, the empty list and the
empty dict are all falsy. -/
def pyTruthy : Option Payload → Bool
  | none => false
  | some (Payload.single r) => ¬ r.isEmpty
  | some (Payload.batch rs) => ¬ rs.isEmpty

/-- insertion.py `insert_records`: falsy input is rejected with
`{'error': 'no data'}` before rate limiting; otherwise the rate limiter
runs (a TypeError it raises propagates), then each surviving record is
written independently. -/
def insert_records (db : Db) (data : Option Payload) (table_name : String)
    (stats : Stats) : Except String (Db × Stats × Bool × InsResp) :=
  if ¬ pyTruthy data then
    Except.ok (db, stats, false, InsResp.errMsg "no data")
  else
    match data with
    | none => Except.ok (db, stats, false, InsResp.errMsg "no data")
    | some p =>
      match apply_rate_limit p table_name with
      | Except.error e => Except.error e
      | Except.ok (Payload.batch l) =>
        match insertLoop db l table_name stats with
        | (db1, st1, s, e) =>
          Except.ok (db1, st1, true, InsResp.okBatch s e)
      | Except.ok (Payload.single r) =>
        match insert_record db r table_name stats with
        | (db1, st1, ok, msg) =>
          if ok then Except.ok (db1, st1, true, InsResp.okSingle)
          else Except.ok (db1, st1, false, InsResp.errMsg msg)

/- ===== query_data (retrieval.py lines 217-372) ===== -/

/-- The query string: ordered key/value pairs. -/
abbrev QueryArgs := List (String × String)

/-- Python `request_args.get(k)`: first value bound to the key. -/
def argsGet (args : QueryArgs) (k : String) : Option String :=
  match args.find? (fun p => p.1 = k) with
  | some p => some p.2
  | none => none

/-- State accumulated by the parameter-parsing loop of `query_data`. -/
structure ParsedQ where
  conds : List Cond
  limit : Option Int
  offset : Option Int
  didIdx : Option Nat
deriving DecidableEq, Repr

/-- The `for key, value in request_args.items()` loop: builds conditions,
validates limit/offset, records where the device_id condition sits.
Failures carry the error message and HTTP status of the early return
(including the uncaught IndexError when the device_id list is all blank,
which the surrounding handler maps to 500). -/
def parseLoop (didParam : Option String) :
    QueryArgs → ParsedQ → Except (String × Nat) ParsedQ
  | [], st => Except.ok st
  | (k, v) :: rest, st =>
    if k = "table" then parseLoop didParam rest st
    else if k = "device_id" then
      match didParam with
      | some dp =>
        if dp = "" then parseLoop didParam rest st
        else
          if (splitTrim dp).length > 1 then
            parseLoop didParam rest
              { st with
                conds := st.conds ++
                  [Cond.cin "device_id" ((splitTrim dp).map Value.vStr)]
                didIdx := some st.conds.length }
          else
            match splitTrim dp with
            | [] => Except.error ("list index out of range", 500)
            | i :: _ =>
              parseLoop didParam rest
                { st with
                  conds := st.conds ++ [Cond.ceq "device_id" (Value.vStr i)]
                  didIdx := some st.conds.length }
      | none => parseLoop didParam rest st
    else if k = "start_time" then
      parseLoop didParam rest
        { st with conds := st.conds ++ [Cond.cge "timestamp" v] }
    else if k = "end_time" then
      parseLoop didParam rest
        { st with conds := st.conds ++ [Cond.cle "timestamp" v] }
    else if k = "limit" then
      match pyToInt v with
      | some n =>
        if n ≤ 0 then Except.error ("limit must be positive", 400)
        else parseLoop didParam rest { st with limit := some n }
      | none => Except.error ("limit must be a valid integer", 400)
    else if k = "offset" then
      match pyToInt v with
      | some n =>
        if n < 0 then Except.error ("offset must be non-negative", 400)
        else parseLoop didParam rest { st with offset := some n }
      | none => Except.error ("offset must be a valid integer", 400)
    else if v.contains ',' then
      if (splitTrim v).isEmpty then
        Except.error ("invalid comma-separated list for " ++ k, 400)
      else
        parseLoop didParam rest
          { st with
            conds := st.conds ++ [Cond.cin k ((splitTrim v).map Value.vStr)] }
    else
      parseLoop didParam rest
        { st with conds := st.conds ++ [Cond.ceq k (Value.vStr v)] }

/-- One device-uid lookup inside `query_data`: query `device_lookup` via
`query_table` and take `data[0].get('id')` when the call succeeded with a
nonempty page. -/
def lookupUid (db : Db) (did : String) : Option Value :=
  match query_table db (some "device_lookup")
      [Cond.ceq "device_uuid" (Value.vStr did)] none none with
  | QTRes.ok resp _ =>
    match resp.data with
    | row :: _ => some ((pyGet row "id").getD Value.vNull)
    | [] => none
  | QTRes.err _ _ => none

/-- The pre-loop device_uid resolution: present only when the device_id
parameter is truthy; collects the uid of every id whose lookup succeeded
with a nonempty result, silently dropping the others. -/
def deviceUids (db : Db) (didParam : Option String) : Option (List Value) :=
  match didParam with
  | some dp =>
    if dp = "" then none
    else some ((splitTrim dp).filterMap (lookupUid db))
  | none => none

/-- The `device_uid` condition replacing the device_id one on the
transformed table: IN for several uids, equality for one. -/
def uidCond : List Value → Cond
  | [u] => Cond.ceq "device_uid" u
  | us => Cond.cin "device_uid" us

/-- Transformed-table conditions: the original conditions with the
device_id condition (and its parameters) spliced out. -/
def transformedConds (conds : List Cond) : Option Nat → List Cond
  | none => conds
  | some i => conds.eraseIdx i

/-- One sub-query of the merge: contributes its page when the call
succeeded and the page is truthy (nonempty). -/
def subQueryData (db : Db) (t : String) (conds : List Cond) : List Record :=
  match query_table db (some t) conds none none with
  | QTRes.ok resp _ => if resp.data.isEmpty then [] else resp.data
  | QTRes.err _ _ => []

/-- The in-memory merged collection `all_data`: original-table page, then
the transformed-table page when any device_uids were resolved. -/
def qdMerged (db : Db) (table_name : String) (conds : List Cond)
    (didIdx : Option Nat) (duids : Option (List Value)) : List Record :=
  match duids with
  | some us =>
    if us.isEmpty then subQueryData db table_name conds
    else
      subQueryData db table_name conds ++
        subQueryData db (table_name ++ "_transformed")
          (transformedConds conds didIdx ++ [uidCond us])
  | none => subQueryData db table_name conds

/-- The Python sort key `x.get('timestamp', 0)`: the stored timestamp
value when the key is present (including null and non-numeric values), the
int 0 default otherwise. -/
def pySortKey (r : Record) : Value :=
  match lookupKey r "timestamp" with
  | some v => v
  | none => Value.vInt 0

/-- Comparison class of a sort key under Python `<`: numbers (ints and
bools) compare with numbers, strings with strings, bytes with bytes, and
None compares with nothing — not even with itself. -/
def keyClassOf : Value → Nat
  | Value.vInt _ => 0
  | Value.vBool _ => 0
  | Value.vStr _ => 1
  | Value.vBytes _ => 2
  | Value.vNull => 3

/-- Whether Python can compare two sort keys with `<`. -/
def comparableKeys (a b : Value) : Bool :=
  keyClassOf a = keyClassOf b ∧ keyClassOf a ≠ 3

/-- Python `<=` on two comparable sort keys (the catch-all arm is
unreachable when the keys are comparable). -/
def keyLeB (a b : Value) : Bool :=
  match numOf a, numOf b with
  | some x, some y => x ≤ y
  | _, _ =>
    match a, b with
    | Value.vStr x, Value.vStr y => ¬ strLt y x
    | Value.vBytes x, Value.vBytes y => ¬ natListLt y x
    | _, _ => false

/-- Whether every adjacent pair of records has comparable sort keys.
Timsort's run detection compares every adjacent pair, so an incomparable
adjacent pair always raises; and in this value universe (numbers, strings,
bytes, None) an adjacent-comparability chain forces all keys into one
comparable class, so no later merge comparison can raise either. -/
def adjComparable : List Record → Bool
  | [] => true
  | [_] => true
  | a :: b :: rest =>
    comparableKeys (pySortKey a) (pySortKey b) && adjComparable (b :: rest)

/-- Stable insertion of one element into a sorted list. -/
def insertSorted (le : α → α → Bool) (a : α) : List α → List α
  | [] => [a]
  | b :: bs => if le a b then a :: b :: bs else b :: insertSorted le a bs

/-- A stable sort (ties keep input order), as Python list.sort on a list
of mutually comparable keys. -/
def sortStable (le : α → α → Bool) : List α → List α
  | [] => []
  | a :: as => insertSorted le a (sortStable le as)

/-- Python `all_data.sort(key=lambda x: x.get('timestamp', 0))`, attempted
only when the collection is nonempty and its first record has a timestamp
key; raises TypeError when two keys it compares are not mutually
comparable (e.g. a stored null, or strings mixed with ints). -/
def sortMerged (allData : List Record) : Except String (List Record) :=
  match allData with
  | [] => Except.ok allData
  | r :: _ =>
    if hasKey r "timestamp" then
      if adjComparable allData then
        Except.ok
          (sortStable (fun a b => keyLeB (pySortKey a) (pySortKey b))
            allData)
      else Except.error "TypeError: not supported between instances"
    else Except.ok allData

/-- Build the paginated response of `query_data` from the sorted merged
collection and the parsed limit/offset (defaults 10000 and 0 applied
here). -/
def qdResponse (sorted : List Record) (limit offset : Option Int) :
    QueryResp :=
  { data := (sorted.drop (offset.getD 0).toNat).take (limit.getD 10000).toNat
    count :=
      ((sorted.drop (offset.getD 0).toNat).take (limit.getD 10000).toNat).length
    total_count := sorted.length
    limit := limit.getD 10000
    offset := offset.getD 0
    has_more := decide ((offset.getD 0 +
      ((((sorted.drop (offset.getD 0).toNat).take
        (limit.getD 10000).toNat).length : Nat) : Int)) <
      (sorted.length : Int)) }

/-- retrieval.py `query_data`: resolve device_uids, parse the parameters,
run the original-table sub-query and, when uids were resolved, the
transformed-table sub-query, then sort, merge and paginate in memory; a
TypeError raised by the timestamp sort is caught by the surrounding
handler and returned as a 500. -/
def query_data (db : Db) (table_name : String) (args : QueryArgs) : QTRes :=
  match parseLoop (argsGet args "device_id") args ⟨[], none, none, none⟩ with
  | Except.error (m, c) => QTRes.err m c
  | Except.ok st =>
    match sortMerged (qdMerged db table_name st.conds st.didIdx
        (deviceUids db (argsGet args "device_id"))) with
    | Except.error e => QTRes.err e 500
    | Except.ok sorted =>
      QTRes.ok (qdResponse sorted st.limit st.offset) 200

/- ===== Table discovery (retrieval.py lines 44-120 and 375-465) ===== -/

/-- retrieval.py `table_has_data`: existence-only probe, returning the
`(success, has_data, status)` triple. -/
def table_has_data (db : Db) (table_name : String) (conds : List Cond) :
    Bool × Bool × Nat :=
  if table_name = "" then (false, false, 400)
  else if ¬ db.connOk then (false, false, 503)
  else
    match db.findTable table_name with
    | none => (false, false, 500)
    | some rows =>
      if conds.isEmpty then (true, ¬ rows.isEmpty, 200)
      else (true, rows.any (matchesAll conds), 200)

/-- retrieval.py `get_all_tables`: the schema's table names. -/
def get_all_tables (db : Db) : Bool × List String × Nat :=
  if ¬ db.connOk then (false, [], 503)
  else (true, db.tables.map (fun p => p.1), 200)

/-- The fixed denylist of internal tables skipped by discovery
(retrieval.py line 414). -/
def discoveryDenylist : List String :=
  ["device_lookup", "aware_device", "aware_log", "mqtt_history",
   "mqtt_history_transformed", "encryption_skip_list", "device_index"]

/-- One entry of `tables_with_data`. -/
structure TableEntry where
  table : String
  matched_by : String
  device_ids_matched : List String
deriving DecidableEq, Repr

/-- The discovery response payload. -/
structure DiscResp where
  device_ids : List String
  device_uid_map : List (String × Value)
  tables_with_data : List TableEntry
  count : Nat
deriving DecidableEq, Repr

/-- Outcome of `get_tables_for_devices`. -/
inductive DiscRes where
  | ok (resp : DiscResp) (status : Nat)
  | err (msg : String) (status : Nat)
deriving DecidableEq, Repr

/-- The tables_with_data list, when discovery succeeded. -/
def discTables : DiscRes → Option (List TableEntry)
  | DiscRes.ok r _ => some r.tables_with_data
  | DiscRes.err _ _ => none

/-- The device_uid_map construction loop: one `device_lookup` query per
requested id, keeping only the ids that resolved. -/
def buildUidMap (db : Db) : List String → List (String × Value) →
    List (String × Value)
  | [], m => m
  | did :: rest, m =>
    match query_table db (some "device_lookup")
        [Cond.ceq "device_uuid" (Value.vStr did)] none none with
    | QTRes.ok resp _ =>
      match resp.data with
      | row :: _ =>
        buildUidMap db rest (upsert m did ((pyGet row "id").getD Value.vNull))
      | [] => buildUidMap db rest m
    | QTRes.err _ _ => buildUidMap db rest m

/-- Python `table_name[:-len('_transformed')]`. -/
def stripTransformed (t : String) : String :=
  (t.toList.take (t.length - "_transformed".length)).asString

/-- Python `sorted(...)` on a list of strings. -/
def sortStrings (l : List String) : List String :=
  sortStable (fun a b => ¬ strLt b a) l

/-- The non-transformed probe of the discovery loop: existence of any row
with `device_id IN (requested ids)`; on a match every requested id is
reported. -/
def discProbe1 (db : Db) (requested : List String) (t : String) :
    Option (List String × String) :=
  if ¬ strEndsWith t "_transformed" then
    match table_has_data db t
        [Cond.cin "device_id" (requested.map Value.vStr)] with
    | (s, res, _) => if s ∧ res then some (requested, "device_id") else none
  else none

/-- The transformed probe: existence of any row with
`device_uid IN (resolved uids)`; on a match the uids are mapped back to
their originating device ids through the resolved map. -/
def discProbe2 (db : Db) (uidMap : List (String × Value)) (t : String) :
    Option (List String × String) :=
  if strEndsWith t "_transformed" then
    if (uidMap.map (fun p => p.2)).isEmpty then none
    else
      match table_has_data db t
          [Cond.cin "device_uid" (uidMap.map (fun p => p.2))] with
      | (s, res, _) =>
        if s ∧ res then
          some (((uidMap.filter
              (fun p => p.2 ∈ uidMap.map (fun q => q.2))).map
              (fun p => p.1)), "device_uid")
        else none
  else none

/-- Assemble the `tables_with_data` entry from the probe outcomes: none
when no device matched, otherwise the display name (suffix stripped for a
transformed table) with the sorted match provenance. -/
def discEntry (isT : Bool) (t : String) (matchedBy : List String)
    (matchedIds : List String) : Option TableEntry :=
  if matchedIds.isEmpty then none
  else
    some { table := if isT then stripTransformed t else t
           matched_by := joinWith "," (sortStrings matchedBy)
           device_ids_matched := sortStrings matchedIds }

/-- The per-table body of the discovery loop: probes the table in the
scheme matching its suffix and returns the `tables_with_data` entry when
any requested device matched. -/
def discoverTable (db : Db) (requested : List String)
    (uidMap : List (String × Value)) (t : String) : Option TableEntry :=
  discEntry (strEndsWith t "_transformed") t
    (((discProbe1 db requested t).map Prod.snd).toList ++
      ((discProbe2 db uidMap t).map Prod.snd).toList)
    (((discProbe1 db requested t).map Prod.fst).getD [] ++
      ((discProbe2 db uidMap t).map Prod.fst).getD [])

/-- Python `s.startswith(prefix)`, evaluated on the character lists. -/
def strStartsWith (s pre : String) : Bool :=
  pre.toList.isPrefixOf s.toList

/-- retrieval.py `get_tables_for_devices`. -/
def get_tables_for_devices (db : Db) (requested : List String) : DiscRes :=
  if requested.isEmpty then DiscRes.err "invalid device_id format" 400
  else if (buildUidMap db requested []).isEmpty then
    DiscRes.err "device_ids not found" 404
  else
    match get_all_tables db with
    | (false, _, code) => DiscRes.err "failed to retrieve table list" code
    | (true, allTables, _) =>
      DiscRes.ok
        { device_ids := requested
          device_uid_map := buildUidMap db requested []
          tables_with_data :=
            (allTables.filter (fun t => t ∉ discoveryDenylist)).filterMap
              (discoverTable db requested (buildUidMap db requested []))
          count :=
            ((allTables.filter (fun t => t ∉ discoveryDenylist)).filterMap
              (discoverTable db requested
                (buildUidMap db requested []))).length } 200

/- ===== Rate limiter lemmas ===== -/

/-- Two records whose timestamps are numbers at least `I` apart. -/
def gapOK (I : Int) (a b : Record) : Prop :=
  ∃ ta tb, tsNum a = some ta ∧ tsNum b = some tb ∧ tb - ta ≥ I

/-- The kept list is well spaced relative to the stored last-kept value:
every record carries a numeric timestamp, the first is at least `I` after
the stored value when that value is numeric, and the rest are well spaced
after it. -/
def wsV (I : Int) : Option Value → List Record → Prop
  | _, [] => True
  | last, r :: rs =>
    ∃ t, tsNum r = some t ∧
      (∀ v lt, last = some v → numOf v = some lt → t - lt ≥ I) ∧
      wsV I (getTs r) rs

theorem rateLimitGo_cons_none (I : Int) (r : Record) (rs : List Record) :
    rateLimitGo I none (r :: rs) =
      (rateLimitGo I (getTs r) rs).map (fun tail => r :: tail) := by
  simp [rateLimitGo]

theorem rateLimitGo_cons_some (I : Int) (r : Record) (rs : List Record)
    (lv : Value) (lt t : Int) (hv : numOf lv = some lt)
    (ht : tsNum r = some t) :
    rateLimitGo I (some lv) (r :: rs) =
      if t - lt ≥ I then
        (rateLimitGo I (getTs r) rs).map (fun tail => r :: tail)
      else rateLimitGo I (some lv) rs := by
  simp only [rateLimitGo]
  rw [show (getTs r).bind numOf = tsNum r from rfl, ht, hv]

theorem rateLimitGo_cons_tserr (I : Int) (r : Record) (rs : List Record)
    (lv : Value) (lt : Int) (hv : numOf lv = some lt)
    (ht : tsNum r = none) :
    rateLimitGo I (some lv) (r :: rs) =
      Except.error "TypeError: unsupported operand type for -" := by
  simp only [rateLimitGo]
  rw [show (getTs r).bind numOf = tsNum r from rfl, ht, hv]

theorem tsNum_elim (r : Record) (t : Int) (ht : tsNum r = some t) :
    ∃ w, getTs r = some w ∧ numOf w = some t := by
  unfold tsNum at ht
  cases hgw : getTs r with
  | none => rw [hgw] at ht; simp at ht
  | some w => rw [hgw] at ht; simp at ht; exact ⟨w, rfl, ht⟩

/-- RL1: on an all-timestamped input, the scan succeeds and produces an
in-order well-spaced sublist, keeping the head when no timestamp is
stored yet. -/
theorem rateLimitGo_spec (I : Int) :
    ∀ (l : List Record) (last : Option Value),
      (∀ r ∈ l, (tsNum r).isSome) →
      (∀ v, last = some v → (numOf v).isSome) →
      ∃ k, rateLimitGo I last l = Except.ok k ∧ k.Sublist l ∧
        (last = none → k.head? = l.head?) ∧ wsV I last k := by
  intro l
  induction l with
  | nil =>
    intro last _ _
    exact ⟨[], rfl, List.Sublist.refl _, fun _ => rfl, trivial⟩
  | cons r rs ih =>
    intro last h1 h2
    have hr : (tsNum r).isSome := h1 r (by simp)
    obtain ⟨t, ht⟩ : ∃ t, tsNum r = some t := Option.isSome_iff_exists.mp hr
    obtain ⟨w, hw1, hw2⟩ := tsNum_elim r t ht
    have hrs : ∀ x ∈ rs, (tsNum x).isSome := fun x hx => h1 x (by simp [hx])
    have hstate : ∀ v, getTs r = some v → (numOf v).isSome := by
      intro v hv
      rw [hw1] at hv
      cases hv
      simp [hw2]
    cases last with
    | none =>
      obtain ⟨k, hk, hsub, _, hws⟩ := ih (getTs r) hrs hstate
      refine ⟨r :: k, ?_, hsub.cons₂ r, fun _ => rfl, ?_⟩
      · rw [rateLimitGo_cons_none, hk]
        rfl
      · exact ⟨t, ht, by simp, hws⟩
    | some lv =>
      obtain ⟨lt, hlt⟩ : ∃ lt, numOf lv = some lt :=
        Option.isSome_iff_exists.mp (h2 lv rfl)
      by_cases hge : t - lt ≥ I
      · obtain ⟨k, hk, hsub, _, hws⟩ := ih (getTs r) hrs hstate
        refine ⟨r :: k, ?_, hsub.cons₂ r, by simp, ?_⟩
        · rw [rateLimitGo_cons_some I r rs lv lt t hlt ht, if_pos hge, hk]
          rfl
        · refine ⟨t, ht, ?_, hws⟩
          intro v lt0 hv hlt0
          cases hv
          rw [hlt] at hlt0
          cases hlt0
          exact hge
      · obtain ⟨k, hk, hsub, _, hws⟩ := ih (some lv) hrs h2
        refine ⟨k, ?_, hsub.cons r, by simp, hws⟩
        rw [rateLimitGo_cons_some I r rs lv lt t hlt ht, if_neg hge, hk]

/-- RL2: a well-spaced list passes through the scan unchanged. -/
theorem rateLimitGo_fix (I : Int) :
    ∀ (k : List Record) (last : Option Value), wsV I last k →
      (∀ v, last = some v → (numOf v).isSome) →
      rateLimitGo I last k = Except.ok k := by
  intro k
  induction k with
  | nil => intro last _ _; rfl
  | cons r rs ih =>
    intro last hws h2
    obtain ⟨t, ht, hgap, hws2⟩ := hws
    obtain ⟨w, hw1, hw2⟩ := tsNum_elim r t ht
    have hstate : ∀ v, getTs r = some v → (numOf v).isSome := by
      intro v hv
      rw [hw1] at hv
      cases hv
      simp [hw2]
    cases last with
    | none =>
      rw [rateLimitGo_cons_none, ih (getTs r) hws2 hstate]
      rfl
    | some lv =>
      obtain ⟨lt, hlt⟩ : ∃ lt, numOf lv = some lt :=
        Option.isSome_iff_exists.mp (h2 lv rfl)
      rw [rateLimitGo_cons_some I r rs lv lt t hlt ht,
          if_pos (hgap lv lt rfl hlt), ih (getTs r) hws2 hstate]
      rfl

/-- RL3: once a numeric timestamp is stored, reaching a record without one
raises. -/
theorem rateLimitGo_break (I : Int) (r : Record) (post : List Record)
    (hr : getTs r = none) :
    ∀ (pre : List Record) (lv : Value) (lt : Int), numOf lv = some lt →
      (∀ x ∈ pre, (tsNum x).isSome) →
      rateLimitGo I (some lv) (pre ++ r :: post) =
        Except.error "TypeError: unsupported operand type for -" := by
  intro pre
  induction pre with
  | nil =>
    intro lv lt hlv _
    have ht : tsNum r = none := by unfold tsNum; rw [hr]; rfl
    simpa using rateLimitGo_cons_tserr I r post lv lt hlv ht
  | cons x xs ih =>
    intro lv lt hlv hall
    have hx : (tsNum x).isSome := hall x (by simp)
    obtain ⟨tx, htx⟩ : ∃ tx, tsNum x = some tx := Option.isSome_iff_exists.mp hx
    obtain ⟨w, hw1, hw2⟩ := tsNum_elim x tx htx
    have hxs : ∀ y ∈ xs, (tsNum y).isSome := fun y hy => hall y (by simp [hy])
    rw [List.cons_append,
        rateLimitGo_cons_some I x (xs ++ r :: post) lv lt tx hlv htx]
    by_cases hge : tx - lt ≥ I
    · rw [if_pos hge, hw1, ih w tx hw2 hxs]
      rfl
    · rw [if_neg hge, ih lv lt hlv hxs]

/-- A well-spaced list satisfies the adjacent-gap chain. -/
theorem wsV_chain (I : Int) :
    ∀ (k : List Record) (last : Option Value), wsV I last k →
      List.Chain' (gapOK I) k := by
  intro k
  induction k with
  | nil => intro _ _; exact List.chain'_nil
  | cons r rs ih =>
    intro last hws
    obtain ⟨t, ht, _, hws2⟩ := hws
    cases rs with
    | nil => exact List.chain'_singleton r
    | cons r2 rs2 =>
      have hws2c := hws2
      obtain ⟨t2, ht2, hgap2, _⟩ := hws2c
      obtain ⟨w, hw1, hw2⟩ := tsNum_elim r t ht
      rw [List.chain'_cons]
      exact ⟨⟨t, t2, ht, ht2, hgap2 w t hw1 hw2⟩, ih (getTs r) hws2⟩

/- ===== Claims about the rate limiter ===== -/

/-- Every record of the payload carries a numeric timestamp. -/
def payloadAllTs : Payload → Bool
  | Payload.single r => (tsNum r).isSome
  | Payload.batch rs => rs.all (fun r => (tsNum r).isSome)

/-- The keep rule exactly as the claim states it: scanning in input order
with the last kept timestamp (initially unset), a record is kept iff the
last kept timestamp is unset or the record's timestamp minus it is at
least the interval; keeping stores the record's timestamp. (Records
without a numeric timestamp are outside the claim's scope.) -/
def specKeep (I : Int) (last : Option Int) : List Record → List Record
  | [] => []
  | r :: rs =>
    match last with
    | none => r :: specKeep I (tsNum r) rs
    | some lt =>
      match tsNum r with
      | some t =>
        if t - lt ≥ I then r :: specKeep I (tsNum r) rs
        else specKeep I (some lt) rs
      | none => specKeep I (some lt) rs

/-- On all-timestamped input the implementation's scan keeps exactly the
records the claim's keep rule keeps. -/
theorem rateLimitGo_eq_specKeep (I : Int) :
    ∀ (l : List Record) (last : Option Value),
      (∀ r ∈ l, (tsNum r).isSome) →
      (∀ v, last = some v → (numOf v).isSome) →
      rateLimitGo I last l = Except.ok (specKeep I (last.bind numOf) l) := by
  intro l
  induction l with
  | nil => intro last _ _; rfl
  | cons r rs ih =>
    intro last h1 h2
    have hr : (tsNum r).isSome := h1 r (by simp)
    obtain ⟨t, ht⟩ : ∃ t, tsNum r = some t := Option.isSome_iff_exists.mp hr
    obtain ⟨w, hw1, hw2⟩ := tsNum_elim r t ht
    have hrs : ∀ x ∈ rs, (tsNum x).isSome := fun x hx => h1 x (by simp [hx])
    have hstate : ∀ v, getTs r = some v → (numOf v).isSome := by
      intro v hv
      rw [hw1] at hv
      cases hv
      simp [hw2]
    cases last with
    | none =>
      rw [rateLimitGo_cons_none, ih (getTs r) hrs hstate]
      rfl
    | some lv =>
      obtain ⟨lt, hlt⟩ : ∃ lt, numOf lv = some lt :=
        Option.isSome_iff_exists.mp (h2 lv rfl)
      have hbind : (Option.some lv).bind numOf = some lt := by simp [hlt]
      rw [rateLimitGo_cons_some I r rs lv lt t hlt ht, hbind]
      by_cases hge : t - lt ≥ I
      · rw [if_pos hge, ih (getTs r) hrs hstate]
        have hsk : specKeep I (some lt) (r :: rs) =
            r :: specKeep I (tsNum r) rs := by
          simp only [specKeep]
          rw [ht]
          simp [hge]
        rw [hsk]
        rfl
      · rw [if_neg hge, ih (some lv) hrs h2, hbind]
        have hsk : specKeep I (some lt) (r :: rs) =
            specKeep I (some lt) rs := by
          simp only [specKeep]
          rw [ht]
          simp [hge]
        rw [hsk]

/-- C5 (confirmed). Rate limiter causality: for every non-empty list `S`
of records each carrying a timestamp, `apply_rate_limit(S, T)` returns a
subsequence `K` of `S` in input order with `K.head? = S.head?` (so
`K[0] = S[0]`), every adjacent pair of kept records at least
`rateLimitFor T` apart — the per-table interval from the rate_limits
configuration falling back to 200000 microseconds — and `K` is exactly the
records the claim's keep rule selects: kept iff first (no stored
timestamp) or at least the interval after the last kept timestamp. -/
theorem rate_limiter_causality (S : List Record) (T : String)
    (hne : S ≠ []) (hall : ∀ r ∈ S, (tsNum r).isSome) :
    ∃ K, apply_rate_limit (Payload.batch S) T =
        Except.ok (Payload.batch K) ∧
      K = specKeep (rateLimitFor T) none S ∧
      K.head? = S.head? ∧ K.Sublist S ∧
      List.Chain' (gapOK (rateLimitFor T)) K := by
  obtain ⟨k, hk, hsub, hhead, hws⟩ :=
    rateLimitGo_spec (rateLimitFor T) S none hall (fun v hv => by cases hv)
  have hcorr := rateLimitGo_eq_specKeep (rateLimitFor T) S none hall
    (fun v hv => by cases hv)
  rw [hk] at hcorr
  have hkeq : k = specKeep (rateLimitFor T) none S := by
    simpa using hcorr
  refine ⟨k, ?_, hkeq, hhead rfl, hsub, wsV_chain _ _ _ hws⟩
  simp [apply_rate_limit, hk, Except.map]

/-- Witness for C5 at a concrete accelerometer batch. -/
theorem rate_limiter_causality_witness :
    ∃ K, apply_rate_limit
        (Payload.batch [[("timestamp", Value.vInt 0)],
                        [("timestamp", Value.vInt 250000)]])
        "accelerometer" = Except.ok (Payload.batch K) ∧
      K = specKeep (rateLimitFor "accelerometer") none
        [[("timestamp", Value.vInt 0)],
         [("timestamp", Value.vInt 250000)]] ∧
      K.head? = ([[("timestamp", Value.vInt 0)],
                  [("timestamp", Value.vInt 250000)]] : List Record).head? ∧
      K.Sublist [[("timestamp", Value.vInt 0)],
                 [("timestamp", Value.vInt 250000)]] ∧
      List.Chain' (gapOK (rateLimitFor "accelerometer")) K :=
  rate_limiter_causality
    [[("timestamp", Value.vInt 0)], [("timestamp", Value.vInt 250000)]]
    "accelerometer" (by decide) (by decide)

/-- C6 (confirmed). Rate limiter idempotence: for every input carrying
timestamps (a single record dict or a list), reapplying the filter to its
own output returns the output unchanged. -/
theorem rate_limiter_idempotent (S : Payload) (T : String)
    (hall : payloadAllTs S = true) :
    (apply_rate_limit S T).bind (fun q => apply_rate_limit q T) =
      apply_rate_limit S T := by
  cases S with
  | single r => rfl
  | batch rs =>
    have hall2 : ∀ r ∈ rs, (tsNum r).isSome := by
      simpa [payloadAllTs, List.all_eq_true] using hall
    obtain ⟨k, hk, _, _, hws⟩ :=
      rateLimitGo_spec (rateLimitFor T) rs none hall2 (fun v hv => by cases hv)
    have h2 : rateLimitGo (rateLimitFor T) none k = Except.ok k :=
      rateLimitGo_fix _ k none hws (fun v hv => by cases hv)
    simp [apply_rate_limit, hk, h2, Except.bind, Except.map]

/-- Witness for C6 at a concrete batch. -/
theorem rate_limiter_idempotent_witness :
    (apply_rate_limit
        (Payload.batch [[("timestamp", Value.vInt 0)],
                        [("timestamp", Value.vInt 100)],
                        [("timestamp", Value.vInt 300000)]]) "sensor_data").bind
      (fun q => apply_rate_limit q "sensor_data") =
    apply_rate_limit
      (Payload.batch [[("timestamp", Value.vInt 0)],
                      [("timestamp", Value.vInt 100)],
                      [("timestamp", Value.vInt 300000)]]) "sensor_data" :=
  rate_limiter_idempotent
    (Payload.batch [[("timestamp", Value.vInt 0)],
                    [("timestamp", Value.vInt 100)],
                    [("timestamp", Value.vInt 300000)]])
    "sensor_data" (by decide)

/-- C8 counterexample: a batch whose second record has no timestamp makes
`apply_rate_limit` raise a TypeError (Python `None - 0`), instead of
keeping the record as the claim states. -/
theorem rate_limit_missing_ts_raises :
    apply_rate_limit
      (Payload.batch [[("timestamp", Value.vInt 0)],
                      [("device_id", Value.vStr "d1")]]) "sensor_data" =
      Except.error "TypeError: unsupported operand type for -" := rfl

/-- C8 (corrected). After any non-empty all-timestamped prefix has been
scanned, the stored last-kept timestamp is a number, and the next record
lacking a timestamp makes `apply_rate_limit` raise a TypeError — the
missing-timestamp record is never kept in this situation. (Only when no
numeric timestamp is stored yet is such a record kept.) -/
theorem rate_limit_missing_ts_raises_after_kept
    (pre : List Record) (r : Record) (post : List Record) (T : String)
    (hne : pre ≠ []) (hall : ∀ x ∈ pre, (tsNum x).isSome)
    (hr : getTs r = none) :
    apply_rate_limit (Payload.batch (pre ++ r :: post)) T =
      Except.error "TypeError: unsupported operand type for -" := by
  cases pre with
  | nil => exact absurd rfl hne
  | cons p ps =>
    have hp : (tsNum p).isSome := hall p (by simp)
    obtain ⟨t, ht⟩ : ∃ t, tsNum p = some t := Option.isSome_iff_exists.mp hp
    obtain ⟨w, hw1, hw2⟩ := tsNum_elim p t ht
    have hps : ∀ x ∈ ps, (tsNum x).isSome := fun x hx => hall x (by simp [hx])
    have hgo : rateLimitGo (rateLimitFor T) none ((p :: ps) ++ r :: post) =
        Except.error "TypeError: unsupported operand type for -" := by
      rw [List.cons_append, rateLimitGo_cons_none, hw1,
          rateLimitGo_break (rateLimitFor T) r post hr ps w t hw2 hps]
      rfl
    simp only [apply_rate_limit, List.cons_append] at hgo ⊢
    rw [hgo]
    rfl

/-- Witness for the amended C8 at a concrete batch. -/
theorem rate_limit_missing_ts_raises_after_kept_witness :
    apply_rate_limit
      (Payload.batch ([[("timestamp", Value.vInt 5)]] ++
        [("v", Value.vInt 1)] :: [])) "gyroscope" =
      Except.error "TypeError: unsupported operand type for -" :=
  rate_limit_missing_ts_raises_after_kept
    [[("timestamp", Value.vInt 5)]] [("v", Value.vInt 1)] [] "gyroscope"
    (by decide) (by decide) (by decide)

/- ===== Claims about the insert interface ===== -/

/-- C10 (confirmed). Every falsy input to `insert_records` (None, empty
list, empty dict) yields the failure outcome with error message `no data`,
with the store and the stats untouched (no rate limiting, no write). -/
theorem insert_records_empty_input (db : Db) (data : Option Payload)
    (table_name : String) (stats : Stats)
    (h : pyTruthy data = false) :
    insert_records db data table_name stats =
      Except.ok (db, stats, false, InsResp.errMsg "no data") := by
  unfold insert_records
  rw [h]
  simp

/-- Witness for C10 at the empty batch. -/
theorem insert_records_empty_input_witness :
    insert_records ⟨true, [("sensor", [])], []⟩ (some (Payload.batch []))
        "sensor" ⟨0, 0, 0, 0⟩ =
      Except.ok (⟨true, [("sensor", [])], []⟩, ⟨0, 0, 0, 0⟩, false,
        InsResp.errMsg "no data") :=
  insert_records_empty_input ⟨true, [("sensor", [])], []⟩
    (some (Payload.batch [])) "sensor" ⟨0, 0, 0, 0⟩ (by decide)

/-- C1 (code_bug evaluation). A record with no `device_id` field, inserted
into an existing table `sensor` over a healthy connection, produces **zero**
physical writes: the store comes back unchanged, yet `insert_record`
reports success claiming the transformed table was used.
`transform_and_write` returns success without writing for such records and
`insert_record` then skips the original-table write — the claim (and the
spec) require exactly one row, written to the original table. -/
theorem insert_record_no_device_id_writes_nothing :
    insert_record ⟨true, [("sensor", [])], []⟩
        [("timestamp", Value.vInt 1000), ("value", Value.vInt 1)]
        "sensor" ⟨0, 0, 0, 0⟩ =
      (⟨true, [("sensor", [])], []⟩, ⟨0, 0, 0, 0⟩, true,
       "Data inserted successfully into transformed table") := by
  decide

/- ===== Table query engine lemmas ===== -/

theorem queryTableRun_ok_props (db : Db) (t : String) (conds : List Cond)
    (L O : Int) (resp : QueryResp) (s : Nat)
    (h : queryTableRun db t conds L O = QTRes.ok resp s) :
    (resp.has_more = true ↔
      resp.offset + (resp.count : Int) < (resp.total_count : Int)) ∧
    resp.count = resp.data.length ∧ (resp.count : Int) ≤ resp.limit ∧
    resp.limit = L ∧ s = 200 := by
  unfold queryTableRun qtOkResp at h
  split at h
  · exact absurd h (by simp)
  · cases hft : db.findTable t with
    | none => rw [hft] at h; exact absurd h (by simp)
    | some rows =>
      rw [hft] at h
      split at h
      · exact absurd h (by simp)
      · split at h
        · exact absurd h (by simp)
        · simp only [QTRes.ok.injEq] at h
          obtain ⟨h1, h2⟩ := h
          subst h1
          subst h2
          refine ⟨by simp [decide_eq_true_iff], rfl, ?_, rfl, rfl⟩
          dsimp only
          simp only [qtSer, List.length_map, List.length_take]
          omega

theorem query_table_ok_props (db : Db) (tn : Option String)
    (conds : List Cond) (l o : Option Int) (resp : QueryResp) (s : Nat)
    (h : query_table db tn conds l o = QTRes.ok resp s) :
    (resp.has_more = true ↔
      resp.offset + (resp.count : Int) < (resp.total_count : Int)) ∧
    resp.count = resp.data.length ∧ (resp.count : Int) ≤ resp.limit := by
  unfold query_table at h
  cases tn with
  | none => exact absurd h (by simp)
  | some t =>
    cases l with
    | none =>
      dsimp only at h
      split at h
      · exact absurd h (by simp)
      · obtain ⟨a, b, c, _, _⟩ :=
          queryTableRun_ok_props db t conds 10000 (o.getD 0) resp s h
        exact ⟨a, b, c⟩
    | some lv =>
      dsimp only at h
      split at h
      · exact absurd h (by simp)
      · split at h
        · exact absurd h (by simp)
        · obtain ⟨a, b, c, _, _⟩ :=
            queryTableRun_ok_props db t conds lv (o.getD 0) resp s h
          exact ⟨a, b, c⟩

theorem query_table_none_data_le (db : Db) (t : String) (c : List Cond)
    (o : Option Int) (resp : QueryResp) (s : Nat)
    (h : query_table db (some t) c none o = QTRes.ok resp s) :
    resp.data.length ≤ 10000 := by
  unfold query_table at h
  dsimp only at h
  split at h
  · exact absurd h (by simp)
  · obtain ⟨_, hcnt, hle, hlim, _⟩ :=
      queryTableRun_ok_props db t c 10000 (o.getD 0) resp s h
    omega

theorem subQueryData_length_le (db : Db) (t : String) (c : List Cond) :
    (subQueryData db t c).length ≤ 10000 := by
  unfold subQueryData
  cases hq : query_table db (some t) c none none with
  | err m s => simp
  | ok resp s =>
    have hd := query_table_none_data_le db t c none resp s hq
    by_cases he : resp.data.isEmpty
    · simp [he]
    · simp only [he, Bool.false_eq_true, if_false]
      exact hd

theorem insertSorted_length (le : α → α → Bool) (a : α) :
    ∀ l : List α, (insertSorted le a l).length = l.length + 1 := by
  intro l
  induction l with
  | nil => rfl
  | cons b bs ih =>
    unfold insertSorted
    split
    · simp
    · simp [ih]

theorem sortStable_length (le : α → α → Bool) :
    ∀ l : List α, (sortStable le l).length = l.length := by
  intro l
  induction l with
  | nil => rfl
  | cons a as ih => simp [sortStable, insertSorted_length, ih]

theorem sortMerged_ok_length (l s : List Record)
    (h : sortMerged l = Except.ok s) : s.length = l.length := by
  unfold sortMerged at h
  split at h
  · simp only [Except.ok.injEq] at h
    rw [← h]
  · split at h
    · split at h
      · simp only [Except.ok.injEq] at h
        rw [← h, sortStable_length]
      · exact absurd h (by simp)
    · simp only [Except.ok.injEq] at h
      rw [← h]

theorem qdMerged_length_le (db : Db) (tn : String) (conds : List Cond)
    (didIdx : Option Nat) (duids : Option (List Value)) :
    (qdMerged db tn conds didIdx duids).length ≤ 20000 := by
  have h1 := subQueryData_length_le db tn conds
  cases duids with
  | none =>
    unfold qdMerged
    dsimp only
    omega
  | some us =>
    unfold qdMerged
    dsimp only
    split
    · omega
    · have h2 := subQueryData_length_le db (tn ++ "_transformed")
        (transformedConds conds didIdx ++ [uidCond us])
      simp only [List.length_append]
      omega

theorem query_data_parse_sort_ok (db : Db) (tn : String) (args : QueryArgs)
    (st : ParsedQ) (sorted : List Record)
    (hp : parseLoop (argsGet args "device_id") args ⟨[], none, none, none⟩ =
      Except.ok st)
    (hs : sortMerged (qdMerged db tn st.conds st.didIdx
      (deviceUids db (argsGet args "device_id"))) = Except.ok sorted) :
    query_data db tn args =
      QTRes.ok (qdResponse sorted st.limit st.offset) 200 := by
  unfold query_data
  rw [hp]
  dsimp only
  rw [hs]

theorem query_data_ok_inv (db : Db) (tn : String) (args : QueryArgs)
    (resp : QueryResp) (s : Nat)
    (h : query_data db tn args = QTRes.ok resp s) :
    ∃ st sorted,
      parseLoop (argsGet args "device_id") args ⟨[], none, none, none⟩ =
        Except.ok st ∧
      sortMerged (qdMerged db tn st.conds st.didIdx
        (deviceUids db (argsGet args "device_id"))) = Except.ok sorted ∧
      resp = qdResponse sorted st.limit st.offset ∧ s = 200 := by
  unfold query_data at h
  cases hp : parseLoop (argsGet args "device_id") args ⟨[], none, none, none⟩
    with
  | error e =>
    rw [hp] at h
    cases e
    exact absurd h (by simp)
  | ok st =>
    rw [hp] at h
    dsimp only at h
    cases hs : sortMerged (qdMerged db tn st.conds st.didIdx
        (deviceUids db (argsGet args "device_id"))) with
    | error e =>
      rw [hs] at h
      exact absurd h (by simp)
    | ok sorted =>
      rw [hs] at h
      simp only [QTRes.ok.injEq] at h
      exact ⟨st, sorted, rfl, hs, h.1.symm, h.2.symm⟩

/-- Bounds guaranteed by the validation in the parse loop: an accepted
limit is positive, an accepted offset nonnegative. -/
def pqBounds (st : ParsedQ) : Prop :=
  (∀ n, st.limit = some n → 1 ≤ n) ∧ (∀ n, st.offset = some n → 0 ≤ n)

theorem parseLoop_bounds (d : Option String) :
    ∀ (args : QueryArgs) (st st2 : ParsedQ),
      parseLoop d args st = Except.ok st2 → pqBounds st → pqBounds st2 := by
  intro args
  induction args with
  | nil =>
    intro st st2 h hb
    simp only [parseLoop, Except.ok.injEq] at h
    rw [← h]
    exact hb
  | cons kv rest ih =>
    intro st st2 h hb
    obtain ⟨k, v⟩ := kv
    unfold parseLoop at h
    repeat' split at h
    all_goals
      first
      | exact absurd h (by simp)
      | exact ih _ _ h hb
      | exact ih _ _ h ⟨fun m hm => by cases hm; omega, hb.2⟩
      | exact ih _ _ h ⟨hb.1, fun m hm => by cases hm; omega⟩

/- ===== Claims about retrieval ===== -/

/-- C7 (confirmed). Pagination consistency: every successful result of
`query_table` and of `query_data` satisfies
`has_more = (offset + count < total_count)`, `count` is the length of the
returned data, and `count <= limit`. -/
theorem pagination_consistency :
    (∀ (db : Db) (tn : Option String) (conds : List Cond)
        (l o : Option Int) (resp : QueryResp) (s : Nat),
        query_table db tn conds l o = QTRes.ok resp s →
        (resp.has_more = true ↔
          resp.offset + (resp.count : Int) < (resp.total_count : Int)) ∧
        resp.count = resp.data.length ∧ (resp.count : Int) ≤ resp.limit) ∧
    (∀ (db : Db) (tn : String) (args : QueryArgs) (resp : QueryResp)
        (s : Nat),
        query_data db tn args = QTRes.ok resp s →
        (resp.has_more = true ↔
          resp.offset + (resp.count : Int) < (resp.total_count : Int)) ∧
        resp.count = resp.data.length ∧ (resp.count : Int) ≤ resp.limit) := by
  constructor
  · intro db tn conds l o resp s h
    exact query_table_ok_props db tn conds l o resp s h
  · intro db tn args resp s h
    obtain ⟨st, sorted, hp, hs, hr, _⟩ := query_data_ok_inv db tn args resp s h
    have hb := parseLoop_bounds _ args ⟨[], none, none, none⟩ st hp
      ⟨fun n hn => Option.noConfusion hn, fun n hn => Option.noConfusion hn⟩
    have hL : 0 ≤ st.limit.getD 10000 := by
      cases hsl : st.limit with
      | none => simp
      | some n =>
        have := hb.1 n hsl
        simp only [Option.getD_some]
        omega
    subst hr
    refine ⟨by simp [qdResponse, decide_eq_true_iff], rfl, ?_⟩
    simp only [qdResponse, List.length_take]
    omega

/-- Witness for C7 at a concrete successful query. -/
theorem pagination_consistency_witness :
    ((QueryResp.mk [[("timestamp", Value.vInt 1)]] 1 1 10000 0
        false).has_more = true ↔
      (QueryResp.mk [[("timestamp", Value.vInt 1)]] 1 1 10000 0 false).offset +
        ((QueryResp.mk [[("timestamp", Value.vInt 1)]] 1 1 10000 0
          false).count : Int) <
        ((QueryResp.mk [[("timestamp", Value.vInt 1)]] 1 1 10000 0
          false).total_count : Int)) ∧
    (QueryResp.mk [[("timestamp", Value.vInt 1)]] 1 1 10000 0 false).count =
      (QueryResp.mk [[("timestamp", Value.vInt 1)]] 1 1 10000 0
        false).data.length ∧
    ((QueryResp.mk [[("timestamp", Value.vInt 1)]] 1 1 10000 0
      false).count : Int) ≤
      (QueryResp.mk [[("timestamp", Value.vInt 1)]] 1 1 10000 0
        false).limit :=
  pagination_consistency.1
    ⟨true, [("sensor", [[("timestamp", Value.vInt 1)]])], []⟩
    (some "sensor") [] none none
    (QueryResp.mk [[("timestamp", Value.vInt 1)]] 1 1 10000 0 false) 200
    (by decide)

/-- C3 counterexample: with table `sensor` absent (so the primary
original-table sub-query fails with a storage error) but
`sensor_transformed` present, `query_data` still returns success 200 with
the transformed rows — the primary failure is not fatal, contradicting the
claim. -/
theorem query_data_primary_failure_not_fatal :
    query_table
        ⟨true, [("device_lookup",
            [[("device_uuid", Value.vStr "d1"), ("id", Value.vInt 7)]]),
          ("sensor_transformed",
            [[("device_uid", Value.vInt 7), ("timestamp", Value.vInt 5)]])],
          []⟩
        (some "sensor") [Cond.ceq "device_id" (Value.vStr "d1")] none none =
      QTRes.err "Table not found" 500 ∧
    query_data
        ⟨true, [("device_lookup",
            [[("device_uuid", Value.vStr "d1"), ("id", Value.vInt 7)]]),
          ("sensor_transformed",
            [[("device_uid", Value.vInt 7), ("timestamp", Value.vInt 5)]])],
          []⟩
        "sensor" [("table", "sensor"), ("device_id", "d1")] =
      QTRes.ok
        ⟨[[("device_uid", Value.vInt 7), ("timestamp", Value.vInt 5)]],
         1, 1, 10000, 0, false⟩ 200 :=
  ⟨by decide, by decide⟩

/-- C3 (corrected). Per-table sub-query failures — primary or secondary —
are tolerated: `query_data` never consults the sub-queries' success flags,
so whenever the query-parameter parsing succeeds and the in-memory
timestamp sort of the merged collection does not raise, the call returns a
successful 200 response for every store — even one on which the primary
original-table sub-query fails. (A raising sort — NULL or mixed-type
timestamp keys — yields a 500 for that reason, independent of sub-query
success.) -/
theorem query_data_tolerates_all_subquery_failures
    (db : Db) (tn : String) (args : QueryArgs) (st : ParsedQ)
    (sorted : List Record)
    (hp : parseLoop (argsGet args "device_id") args ⟨[], none, none, none⟩ =
      Except.ok st)
    (hs : sortMerged (qdMerged db tn st.conds st.didIdx
      (deviceUids db (argsGet args "device_id"))) = Except.ok sorted) :
    qtSuccess (query_data db tn args) = true ∧
    qtStatus (query_data db tn args) = 200 := by
  rw [query_data_parse_sort_ok db tn args st sorted hp hs]
  exact ⟨rfl, rfl⟩

/-- Witness for the amended C3 at a concrete store with no tables at all
(both sub-queries fail). -/
theorem query_data_tolerates_all_subquery_failures_witness :
    qtSuccess (query_data ⟨true, [], []⟩ "sensor"
        [("table", "sensor"), ("device_id", "d1")]) = true ∧
    qtStatus (query_data ⟨true, [], []⟩ "sensor"
        [("table", "sensor"), ("device_id", "d1")]) = 200 :=
  query_data_tolerates_all_subquery_failures ⟨true, [], []⟩ "sensor"
    [("table", "sensor"), ("device_id", "d1")]
    ⟨[Cond.ceq "device_id" (Value.vStr "d1")], none, none, some 0⟩ []
    rfl rfl

/-- C4 counterexample: `limit=60000` (above the 50000 ceiling) on
`query_data` is not rejected — the call queries storage and returns
success 200, applying the oversized limit to the merged collection. -/
theorem query_data_limit_60000_accepted :
    (50000 : Int) < 60000 ∧
    query_data ⟨true, [("sensor", [[("timestamp", Value.vInt 1)]])], []⟩
        "sensor" [("table", "sensor"), ("limit", "60000")] =
      QTRes.ok ⟨[[("timestamp", Value.vInt 1)]], 1, 1, 60000, 0, false⟩
        200 :=
  ⟨by decide, by decide⟩

/-- C4 (corrected). The validations live in different functions and none
covers everything: `query_table` rejects a supplied limit above 50000 with
a 400 before touching storage (for any store), while `query_data` rejects
only a non-positive limit and a negative offset with a 400 — it never
enforces the 50000 ceiling, and `query_table` never checks non-positive
limits or negative offsets. -/
theorem limit_validation_split :
    (∀ (db : Db) (t : String) (conds : List Cond) (l : Int)
        (o : Option Int), t ≠ "" → 50000 < l →
        query_table db (some t) conds (some l) o =
          QTRes.err "limit cannot exceed 50000 records" 400) ∧
    (∀ (db : Db) (tn : String) (rest : QueryArgs) (v : String) (n : Int),
        pyToInt v = some n → n ≤ 0 →
        query_data db tn (("limit", v) :: rest) =
          QTRes.err "limit must be positive" 400) ∧
    (∀ (db : Db) (tn : String) (rest : QueryArgs) (v : String) (n : Int),
        pyToInt v = some n → n < 0 →
        query_data db tn (("offset", v) :: rest) =
          QTRes.err "offset must be non-negative" 400) := by
  refine ⟨?_, ?_, ?_⟩
  · intro db t conds l o hne h50
    unfold query_table
    dsimp only
    rw [if_neg hne]
    rw [if_pos (by omega : l > 50000)]
  · intro db tn rest v n hv hn
    unfold query_data
    have hp : parseLoop (argsGet (("limit", v) :: rest) "device_id")
        (("limit", v) :: rest) ⟨[], none, none, none⟩ =
        Except.error ("limit must be positive", 400) := by
      unfold parseLoop
      simp [hv, hn]
    rw [hp]
  · intro db tn rest v n hv hn
    unfold query_data
    have hp : parseLoop (argsGet (("offset", v) :: rest) "device_id")
        (("offset", v) :: rest) ⟨[], none, none, none⟩ =
        Except.error ("offset must be non-negative", 400) := by
      unfold parseLoop
      simp [hv, hn]
    rw [hp]

/-- Witness for the amended C4 at concrete inputs. -/
theorem limit_validation_split_witness :
    query_table ⟨true, [], []⟩ (some "sensor") [] (some 60000) none =
      QTRes.err "limit cannot exceed 50000 records" 400 ∧
    query_data ⟨true, [], []⟩ "sensor" [("limit", "0")] =
      QTRes.err "limit must be positive" 400 ∧
    query_data ⟨true, [], []⟩ "sensor" [("offset", "-1")] =
      QTRes.err "offset must be non-negative" 400 :=
  ⟨limit_validation_split.1 ⟨true, [], []⟩ "sensor" [] 60000 none
      (by decide) (by decide),
   limit_validation_split.2.1 ⟨true, [], []⟩ "sensor" [] "0" 0
      (by decide) (by decide),
   limit_validation_split.2.2 ⟨true, [], []⟩ "sensor" [] "-1" (-1)
      (by decide) (by decide)⟩

theorem hasKey_serializeRecord (r : Record) (k : String) :
    hasKey (serializeRecord r) k = hasKey r k := by
  induction r with
  | nil => rfl
  | cons p ps ih =>
    by_cases hk : p.1 = k
    · simp [hasKey, lookupKey, serializeRecord, List.find?_cons, hk]
    · simp [hasKey, lookupKey, serializeRecord, List.find?_cons, hk]
        at ih ⊢
      exact ih

/-- On a store whose `sensor` table holds 10001 timestampless rows, the
device-free query reports a total_count of only 10000: the original-table
sub-query is fetched through the default page of `query_table`. -/
theorem query_data_trunc_general (rows : List Record)
    (h : rows.length = 10001)
    (hnk : ∀ r ∈ rows, hasKey r "timestamp" = false) :
    qtTotal (query_data ⟨true, [("sensor", rows)], []⟩ "sensor"
      [("table", "sensor")]) = some 10000 := by
  have hd : deviceUids ⟨true, [("sensor", rows)], []⟩
      (argsGet [("table", "sensor")] "device_id") = none := rfl
  have hq : query_table ⟨true, [("sensor", rows)], []⟩ (some "sensor") []
      none none = qtOkResp [] rows 10000 0 := by
    unfold query_table queryTableRun
    simp [Db.findTable, List.find?]
  have hser : (qtSer [] rows 10000 0).length = 10000 := by
    simp [qtSer, qtMatching, h]
  have hne2 : (qtSer [] rows 10000 0).isEmpty = false := by
    cases hc : qtSer [] rows 10000 0 with
    | nil => rw [hc] at hser; simp at hser
    | cons a l => simp
  have hsub : subQueryData ⟨true, [("sensor", rows)], []⟩ "sensor" [] =
      qtSer [] rows 10000 0 := by
    unfold subQueryData
    rw [hq]
    unfold qtOkResp
    dsimp only
    rw [hne2]
    simp
  have hmerged : qdMerged ⟨true, [("sensor", rows)], []⟩ "sensor" [] none
      none = qtSer [] rows 10000 0 := hsub
  have hnkser : ∀ a ∈ qtSer [] rows 10000 0, hasKey a "timestamp" = false := by
    intro a ha
    unfold qtSer at ha
    obtain ⟨x, hx, hax⟩ := List.mem_map.mp ha
    have hxr : x ∈ qtMatching [] rows :=
      List.mem_of_mem_drop (List.mem_of_mem_take hx)
    rw [← hax, hasKey_serializeRecord]
    exact hnk x (by simpa [qtMatching] using hxr)
  have hsort : sortMerged (qtSer [] rows 10000 0) =
      Except.ok (qtSer [] rows 10000 0) := by
    cases hc : qtSer [] rows 10000 0 with
    | nil => rfl
    | cons a l =>
      have ha : hasKey a "timestamp" = false := by
        refine hnkser a ?_
        rw [hc]
        simp
      unfold sortMerged
      dsimp only
      rw [ha]
      simp
  rw [query_data_parse_sort_ok ⟨true, [("sensor", rows)], []⟩ "sensor"
    [("table", "sensor")] ⟨[], none, none, none⟩ (qtSer [] rows 10000 0) rfl
    (by rw [hd, hmerged]; exact hsort)]
  simp only [qtTotal, qdResponse, Option.some.injEq]
  exact hser

/-- C2 counterexample: a `sensor` table with 10001 matching rows. The full
matching set before pagination has 10001 records, but `query_data` reports
`total_count = 10000`: the original-table sub-query was not fetched
unpaginated — `query_table` applied its default LIMIT 10000. -/
theorem query_data_total_count_truncated :
    qtTotal (query_data
      ⟨true, [("sensor", List.replicate 10001 [("v", Value.vInt 1)])], []⟩
      "sensor" [("table", "sensor")]) = some 10000 ∧
    ((Db.findTable
        ⟨true, [("sensor", List.replicate 10001 [("v", Value.vInt 1)])], []⟩
        "sensor").getD []).length = 10001 := by
  constructor
  · exact query_data_trunc_general
      (List.replicate 10001 [("v", Value.vInt 1)])
      (List.length_replicate 10001 [("v", Value.vInt 1)])
      (fun r hr => by rw [List.eq_of_mem_replicate hr]; decide)
  · show ((Db.findTable _ "sensor").getD []).length = 10001
    have hf : Db.findTable
        ⟨true, [("sensor", List.replicate 10001 [("v", Value.vInt 1)])], []⟩
        "sensor" = some (List.replicate 10001 [("v", Value.vInt 1)]) := rfl
    rw [hf]
    exact List.length_replicate 10001 [("v", Value.vInt 1)]

/-- C2 (corrected). The sub-queries of `query_data` are issued through
`query_table` with limit and offset left unset, which `query_table`
resolves to its defaults LIMIT 10000 OFFSET 0 — not an unpaginated fetch.
When parsing succeeds and the timestamp sort of the merged collection does
not raise, the user offset/limit (defaults 0 / 10000) are applied only to
the sorted merged collection, and `total_count` is the size of that merged
collection: at most the first 10000 matching rows of each sub-query (hence
at most 20000), not the size of the full matching set. -/
theorem query_data_merge_pagination :
    (∀ (db : Db) (t : Option String) (c : List Cond),
        query_table db t c none none =
          query_table db t c (some 10000) (some 0)) ∧
    (∀ (db : Db) (tn : String) (args : QueryArgs) (st : ParsedQ)
        (sorted : List Record),
        parseLoop (argsGet args "device_id") args ⟨[], none, none, none⟩ =
          Except.ok st →
        sortMerged (qdMerged db tn st.conds st.didIdx
          (deviceUids db (argsGet args "device_id"))) = Except.ok sorted →
        ∃ resp, query_data db tn args = QTRes.ok resp 200 ∧
          resp.total_count =
            (qdMerged db tn st.conds st.didIdx
              (deviceUids db (argsGet args "device_id"))).length ∧
          resp.total_count ≤ 20000 ∧
          resp.data =
            (sorted.drop (st.offset.getD 0).toNat).take
              (st.limit.getD 10000).toNat) := by
  constructor
  · intro db t c
    cases t with
    | none => rfl
    | some tt =>
      by_cases htt : tt = ""
      · simp [query_table, htt]
      · simp [query_table, htt]
  · intro db tn args st sorted hp hs
    refine ⟨_, query_data_parse_sort_ok db tn args st sorted hp hs,
      ?_, ?_, rfl⟩
    · show (qdResponse sorted st.limit st.offset).total_count = _
      simp only [qdResponse]
      exact sortMerged_ok_length _ sorted hs
    · show (qdResponse sorted st.limit st.offset).total_count ≤ 20000
      simp only [qdResponse]
      rw [sortMerged_ok_length _ sorted hs]
      exact qdMerged_length_le db tn st.conds st.didIdx
        (deviceUids db (argsGet args "device_id"))

/-- Witness for the amended C2 at a concrete query. -/
theorem query_data_merge_pagination_witness :
    ∃ resp, query_data ⟨true, [("sensor", [[("v", Value.vInt 3)]])], []⟩
        "sensor" [("table", "sensor")] = QTRes.ok resp 200 ∧
      resp.total_count =
        (qdMerged ⟨true, [("sensor", [[("v", Value.vInt 3)]])], []⟩ "sensor"
          ((⟨[], none, none, none⟩ : ParsedQ)).conds
          ((⟨[], none, none, none⟩ : ParsedQ)).didIdx
          (deviceUids ⟨true, [("sensor", [[("v", Value.vInt 3)]])], []⟩
            (argsGet [("table", "sensor")] "device_id"))).length ∧
      resp.total_count ≤ 20000 ∧
      resp.data =
        (([[("v", Value.vInt 3)]] : List Record).drop
          (((⟨[], none, none, none⟩ : ParsedQ)).offset.getD 0).toNat).take
          (((⟨[], none, none, none⟩ : ParsedQ)).limit.getD 10000).toNat :=
  query_data_merge_pagination.2
    ⟨true, [("sensor", [[("v", Value.vInt 3)]])], []⟩ "sensor"
    [("table", "sensor")] ⟨[], none, none, none⟩ [[("v", Value.vInt 3)]]
    rfl rfl

theorem discoverTable_table_name (db : Db) (req : List String)
    (uidMap : List (String × Value)) (t : String) (e : TableEntry)
    (h : discoverTable db req uidMap t = some e) :
    e.table = (if strEndsWith t "_transformed" then stripTransformed t
               else t) := by
  unfold discoverTable discEntry at h
  split at h
  · exact absurd h (by simp)
  · simp only [Option.some.injEq] at h
    rw [← h]

/-- C9 counterexample: a table named `mqtt_history_2` — which starts with
`mqtt_history` but is not one of the two literally denylisted mqtt names —
is probed and reported in `tables_with_data`. -/
theorem discovery_mqtt_prefix_not_skipped :
    strStartsWith "mqtt_history_2" "mqtt_history" = true ∧
    discTables (get_tables_for_devices
      ⟨true, [("device_lookup",
          [[("device_uuid", Value.vStr "d1"), ("id", Value.vInt 7)]]),
        ("mqtt_history_2",
          [[("device_id", Value.vStr "d1"), ("v", Value.vInt 1)]])], []⟩
      ["d1"]) = some [⟨"mqtt_history_2", "device_id", ["d1"]⟩] :=
  ⟨by decide, by decide⟩

/-- C9 (corrected). The discovery denylist is the exact seven-name set
{device_lookup, aware_device, aware_log, mqtt_history,
mqtt_history_transformed, encryption_skip_list, device_index}: every entry
of `tables_with_data` originates from an enumerated table outside that
set (its display name being the suffix-stripped table name). Names merely
starting with `mqtt_history` are not excluded. -/
theorem discovery_denylist_exact (db : Db) (req : List String)
    (resp : DiscResp) (s : Nat)
    (h : get_tables_for_devices db req = DiscRes.ok resp s) :
    ∀ e ∈ resp.tables_with_data, ∃ t, t ∈ db.tables.map Prod.fst ∧
      t ∉ discoveryDenylist ∧
      e.table = (if strEndsWith t "_transformed" then stripTransformed t
                 else t) := by
  intro e he
  unfold get_tables_for_devices at h
  split at h
  · exact absurd h (by simp)
  · split at h
    · exact absurd h (by simp)
    · split at h
      · exact absurd h (by simp)
      · rename_i allTables snd heq
        have hconn : db.connOk := by
          by_contra hc
          rw [show get_all_tables db = (false, [], 503) from by
            simp [get_all_tables, hc]] at heq
          simp at heq
        have hAllT : allTables = db.tables.map (fun p => p.1) := by
          rw [show get_all_tables db =
              (true, db.tables.map (fun p => p.1), 200) from by
            simp [get_all_tables, hconn]] at heq
          simp only [Prod.mk.injEq] at heq
          exact heq.2.1.symm
        simp only [DiscRes.ok.injEq] at h
        obtain ⟨h1, _⟩ := h
        rw [← h1] at he
        dsimp only at he
        obtain ⟨t, htmem, hsome⟩ := List.mem_filterMap.mp he
        obtain ⟨htables, hdeny⟩ := List.mem_filter.mp htmem
        rw [hAllT] at htables
        refine ⟨t, htables, ?_,
          discoverTable_table_name db req _ t e hsome⟩
        simpa using hdeny

/-- Witness for the amended C9 at a concrete discovery result. -/
theorem discovery_denylist_exact_witness :
    ∃ t, t ∈ (⟨true, [("device_lookup",
          [[("device_uuid", Value.vStr "d1"), ("id", Value.vInt 7)]]),
        ("gps_transformed",
          [[("device_uid", Value.vInt 7), ("v", Value.vInt 1)]])],
        []⟩ : Db).tables.map Prod.fst ∧
      t ∉ discoveryDenylist ∧
      (TableEntry.mk "gps" "device_uid" ["d1"]).table =
        (if strEndsWith t "_transformed" then stripTransformed t else t) :=
  discovery_denylist_exact
    ⟨true, [("device_lookup",
        [[("device_uuid", Value.vStr "d1"), ("id", Value.vInt 7)]]),
      ("gps_transformed",
        [[("device_uid", Value.vInt 7), ("v", Value.vInt 1)]])], []⟩
    ["d1"]
    ⟨["d1"], [("d1", Value.vInt 7)], [⟨"gps", "device_uid", ["d1"]⟩], 1⟩
    200 (by decide) ⟨"gps", "device_uid", ["d1"]⟩ (by decide)
